import Mathlib

/-!
Shallow embedding of the WooCommerce chatbot client: the relevance scorer and
context assembler of the main app component, the OpenAIService conversation
manager, and the useChat hook state machine.  Definitions are translated from
the TypeScript sources; network calls and the system clock are passed in as
explicit parameters.
-/

/-- A product category, as in the WooCommerce REST payload. -/
structure Category where
  id : Nat
  name : String
deriving DecidableEq

/-- A WooCommerce product record (the fields the embedded code reads). -/
structure WooCommerceProduct where
  id : Nat
  name : String
  description : String
  short_description : String
  sku : String
  price : String
  regular_price : String
  on_sale : Bool
  stock_status : String
  stock_quantity : Option Nat
  categories : List Category
  permalink : String
deriving DecidableEq

/-- Placeholder product used for out-of-range index lookups. -/
def dummyProduct : WooCommerceProduct :=
  ⟨0, "", "", "", "", "", "", false, "", none, [], ""⟩

/-- JS `String.prototype.toLowerCase`, modelled characterwise (ASCII). -/
def jsToLower (s : String) : String := ⟨s.data.map Char.toLower⟩

/-- JS `String.prototype.includes`: substring containment. -/
def jsIncludes (hay needle : String) : Bool := decide (needle.data <:+: hay.data)

/-- JS `String.prototype.substring(a, b)`: the characters in positions `[a, b)`. -/
def jsSubstring (s : String) (a b : Nat) : String := ⟨(s.data.take b).drop a⟩

/-- JS `String.prototype.split` with a one-character separator, over
character lists: every separator occurrence cuts, and the empty string splits
to one empty piece. -/
def splitOnChar (sep : Char) : List Char → List (List Char)
  | [] => [[]]
  | c :: rest =>
    let r := splitOnChar sep rest
    if c = sep then [] :: r
    else (c :: r.headD []) :: r.tail

/-- JS `String.prototype.trim`: drop whitespace from both ends. -/
def jsTrim (s : String) : String :=
  ⟨(((s.data.dropWhile Char.isWhitespace).reverse.dropWhile Char.isWhitespace).reverse)⟩

/-- The keyword list of a query: lowercase it, split on spaces, and keep the
words longer than two characters (App.tsx lines 152-153). -/
def queryKeywords (query : String) : List String :=
  (((splitOnChar ' ' (jsToLower query).data).map String.mk).filter
    (fun word => decide (word.length > 2)))

/-- The searchable text blob of a product: name, description, short
description and category names joined by spaces, lowercased (App.tsx l. 157). -/
def productText (p : WooCommerceProduct) : String :=
  jsToLower (p.name ++ " " ++ p.description ++ " " ++ p.short_description ++ " " ++
    String.intercalate " " (p.categories.map (fun c => c.name)))

/-- The score contribution of a single keyword to a product: +1 if it occurs
anywhere in the blob, +3 more if it occurs in the lowercased name
(App.tsx lines 159-166). -/
def keywordScore (p : WooCommerceProduct) (keyword : String) : Nat :=
  (if jsIncludes (productText p) keyword then 1 else 0) +
    (if jsIncludes (jsToLower p.name) keyword then 3 else 0)

/-- The total score of a product against a keyword list. -/
def productScore (keywords : List String) (p : WooCommerceProduct) : Nat :=
  keywords.foldl (fun score keyword => score + keywordScore p keyword) 0

/-- The relevance scorer `findRelevantProducts` (App.tsx lines 149-176):
early return on an empty catalog, score every product, keep positive scores,
stable-sort by descending score (JS `Array.prototype.sort` is stable) and take
the first five. -/
def findRelevantProducts (query : String) (products : List WooCommerceProduct) :
    List WooCommerceProduct :=
  if products.length = 0 then []
  else
    let keywords := queryKeywords query
    let scoredProducts := products.map (fun p => (p, productScore keywords p))
    ((((scoredProducts.filter (fun item => decide (item.2 > 0))).mergeSort
        (fun a b => decide (b.2 ≤ a.2))).take 5).map (fun item => item.1))

/-- Catalog lookup by position (with a placeholder out of range). -/
def prodAt (products : List WooCommerceProduct) (i : Nat) : WooCommerceProduct :=
  products.getD i dummyProduct

/-- The ordering the spec describes on catalog positions: strictly higher
score first, ties broken by original catalog position. -/
def specOrder (sc : Nat → Nat) (i j : Nat) : Prop :=
  sc j < sc i ∨ (sc i = sc j ∧ i ≤ j)

instance specOrderDecidable (sc : Nat → Nat) : DecidableRel (specOrder sc) :=
  fun i j => inferInstanceAs (Decidable (sc j < sc i ∨ (sc i = sc j ∧ i ≤ j)))

/-- The scorer as the spec words it: keep the catalog positions with positive
score, order them by descending score with ties broken by catalog position,
truncate to five, and read the products back off. -/
def findRelevantProductsSpec (query : String) (products : List WooCommerceProduct) :
    List WooCommerceProduct :=
  let keywords := queryKeywords query
  let sc := fun i => productScore keywords (prodAt products i)
  let positives := (List.range products.length).filter (fun i => decide (0 < sc i))
  ((positives.insertionSort (specOrder sc)).take 5).map (prodAt products)

/-- The JS regex replace `/<[^>]*>/g` with the empty string, over characters:
a `<` that is followed by some `>` is dropped together with everything up to
and including that first `>`; a `<` with no later `>` matches nothing. -/
def stripTags : List Char → List Char
  | [] => []
  | c :: rest =>
    if c = '<' ∧ '>' ∈ rest then
      stripTags ((rest.dropWhile (fun d => decide (d ≠ '>'))).tail)
    else c :: stripTags rest
termination_by l => l.length
decreasing_by
  · simp only [List.length_cons]
    have h1 := (List.dropWhile_sublist (l := rest) (fun d => decide (d ≠ '>'))).length_le
    have h2 := List.length_tail (rest.dropWhile (fun d => decide (d ≠ '>')))
    omega
  · simp only [List.length_cons]
    omega

/-- `s.replace(/<[^>]*>/g, '')` on a string. -/
def stripHtmlTags (s : String) : String := ⟨stripTags s.data⟩

/-- `wooCommerceService.formatProductForAI` (woocommerceService.ts). -/
def formatProductForAI (p : WooCommerceProduct) : String :=
  let categories := String.intercalate ", " (p.categories.map (fun c => c.name))
  let stockInfo :=
    if p.stock_status = "instock" then
      match p.stock_quantity with
      | some q => if q = 0 then "In stock" else toString q ++ " in stock"
      | none => "In stock"
    else "Out of stock"
  "Product: " ++ p.name ++ "\n" ++
    "Price: $" ++ p.price ++
      (if p.on_sale then " (Sale from $" ++ p.regular_price ++ ")" else "") ++ "\n" ++
    "SKU: " ++ p.sku ++ "\n" ++
    "Categories: " ++ categories ++ "\n" ++
    "Stock: " ++ stockInfo ++ "\n" ++
    "Description: " ++ stripHtmlTags p.short_description ++ "\n" ++
    "Link: " ++ p.permalink

/-- `wooCommerceService.formatProductsForAI`: numbered entries joined by blank
lines, with a fixed sentence for the empty list. -/
def formatProductsForAI (products : List WooCommerceProduct) : String :=
  if products.length = 0 then "No products found."
  else
    String.intercalate "\n\n"
      (products.enum.map (fun ip => toString (ip.1 + 1) ++ ". " ++ formatProductForAI ip.2))

/-- One rendered line of the App.tsx context block (lines 202-204): name, the
short description or the first 100 characters of the description, price and
stock status. -/
def productContextLine (p : WooCommerceProduct) : String :=
  "- " ++ p.name ++ ": " ++
    (if p.short_description = "" then jsSubstring p.description 0 100
     else p.short_description) ++
    " (Price: $" ++ p.price ++ ", Stock: " ++ p.stock_status ++ ")"

/-- The App.tsx context assembler (lines 201-205): a header plus one line per
relevant product, or a fixed fallback sentence when nothing matched. -/
def productContext (relevantProducts : List WooCommerceProduct) : String :=
  if relevantProducts.length > 0 then
    "\n\nRelevant products from our catalog:\n" ++
      String.intercalate "\n" (relevantProducts.map productContextLine)
  else "\n\nNo specific products found matching your query, but I can help with general information."

/-- Chat completion message roles. -/
inductive Role
  | system
  | user
  | assistant
deriving DecidableEq

/-- A chat completion message. -/
structure ChatMsg where
  role : Role
  content : String
deriving DecidableEq

/-- The fixed system instruction (config/openai.ts `SYSTEM_PROMPT`). -/
def SYSTEM_PROMPT : String :=
  "You are a helpful e-commerce assistant for a WooCommerce store. Your role is to:\n- Help customers find products based on their needs\n- Answer questions about product details, pricing, and availability\n- Provide recommendations based on customer preferences\n- Assist with general store information\n\nWhen answering:\n- Be friendly, professional, and concise\n- Use the product information provided to give accurate answers\n- If you don\x27t have specific information, be honest about it\n- Always prioritize customer satisfaction\n- Format prices clearly with currency symbols\n- Mention stock availability when relevant"

/-- The product cache lifetime in milliseconds (openaiService.ts line 46). -/
def CACHE_DURATION : Nat := 5 * 60 * 1000

/-- The outcome of `OpenAIService.getProductContext`: the updated cache and
timestamp, the context text, and whether a catalog fetch was attempted. -/
structure ProductContextResult where
  cache : List WooCommerceProduct
  cacheTime : Nat
  context : String
  fetched : Bool
deriving DecidableEq

/-- `OpenAIService.getProductContext` (openaiService.ts lines 64-78).  The
clock and the outcome of the catalog fetch (`none` = the fetch threw) are
passed in explicitly. -/
def getProductContext (cache : List WooCommerceProduct) (cacheTime : Nat) (now : Nat)
    (fetchResult : Option (List WooCommerceProduct)) : ProductContextResult :=
  if cache.length = 0 ∨ CACHE_DURATION < now - cacheTime then
    match fetchResult with
    | some ps => ⟨ps, now, formatProductsForAI ps, true⟩
    | none => ⟨cache, cacheTime, "Product information is currently unavailable.", true⟩
  else ⟨cache, cacheTime, formatProductsForAI cache, false⟩

/-- The mutable fields of the `OpenAIService` singleton. -/
structure OpenAIServiceState where
  conversationHistory : List ChatMsg
  productCache : List WooCommerceProduct
  productCacheTime : Nat
deriving DecidableEq

/-- The state after the constructor ran `initializeConversation`. -/
def initialServiceState : OpenAIServiceState :=
  ⟨[⟨Role.system, SYSTEM_PROMPT⟩], [], 0⟩

/-- Outcome of `OpenAIService.sendMessage`: new state, the message list sent
to the completion API (`none` when the configuration check threw first), and
the returned assistant text (`none` when the call failed). -/
structure SvcSendOutcome where
  state : OpenAIServiceState
  request : Option (List ChatMsg)
  response : Option String
deriving DecidableEq

/-- `OpenAIService.sendMessage` (openaiService.ts lines 86-137).  The clock,
the catalog fetch outcome and the completion API outcome (`none` = the
request failed) are explicit parameters. -/
def svcSendMessage (st : OpenAIServiceState) (configOk : Bool) (userMessage : String)
    (includeProductContext : Bool) (now : Nat)
    (fetchResult : Option (List WooCommerceProduct))
    (apiResult : Option ChatMsg) : SvcSendOutcome :=
  if configOk then
    let ctx := getProductContext st.productCache st.productCacheTime now fetchResult
    let st1 := if includeProductContext then
        { st with productCache := ctx.cache, productCacheTime := ctx.cacheTime }
      else st
    let messageContent := if includeProductContext then
        "Available Products:\n" ++ ctx.context ++ "\n\nCustomer Question: " ++ userMessage
      else userMessage
    let request := st1.conversationHistory ++ [⟨Role.user, messageContent⟩]
    match apiResult with
    | some m => ⟨{ st1 with conversationHistory := request ++ [m] }, some request, some m.content⟩
    | none => ⟨{ st1 with conversationHistory := request }, some request, none⟩
  else ⟨st, none, none⟩

/-- One externally triggered operation on the `OpenAIService` singleton, with
its environment (clock, fetch results, API result) bundled in. -/
inductive SvcEvent
  | send (configOk : Bool) (userMessage : String) (includeCtx : Bool) (now : Nat)
      (fetchResult : Option (List WooCommerceProduct)) (apiResult : Option ChatMsg)
  | search (searchResult : Option (List WooCommerceProduct)) (configOk : Bool)
      (searchQuery : String) (apiResult : Option ChatMsg)
  | clear

/-- The state transition of one service operation: `sendMessage`,
`searchProductsAndRespond` (lines 139-158) or `clearConversation`
(lines 160-162). -/
def svcStep (st : OpenAIServiceState) : SvcEvent → OpenAIServiceState
  | .send ok msg inc now fr ar => (svcSendMessage st ok msg inc now fr ar).state
  | .search sr ok q ar =>
    match sr with
    | none => st
    | some ps =>
      if ps.length = 0 then
        (svcSendMessage st ok
          ("I searched for \"" ++ q ++ "\" but couldn\x27t find any matching products. Can you help me find what I\x27m looking for?")
          false 0 none ar).state
      else
        (svcSendMessage st ok
          ("I found " ++ toString ps.length ++ " product(s) matching \"" ++ q ++ "\":\n\n" ++
            formatProductsForAI ps ++ "\n\nPlease provide a helpful response about these products.")
          false 0 none ar).state
  | .clear => { st with conversationHistory := [⟨Role.system, SYSTEM_PROMPT⟩] }

/-- The service state after a sequence of operations from construction. -/
def svcRun (events : List SvcEvent) : OpenAIServiceState :=
  events.foldl svcStep initialServiceState

/-- `OpenAIService.getConversationHistory` (lines 164-166): the history with
system-role entries filtered out. -/
def getConversationHistory (st : OpenAIServiceState) : List ChatMsg :=
  st.conversationHistory.filter (fun msg => decide (msg.role ≠ Role.system))

/-- Roles of messages visible in the `useChat` transcript. -/
inductive UiRole
  | user
  | assistant
deriving DecidableEq

/-- A visible chat message of the `useChat` hook. -/
structure UiMessage where
  id : String
  role : UiRole
  content : String
  timestamp : Nat
deriving DecidableEq

/-- The state owned by the `useChat` hook: the transcript, the loading flag,
the error string, the remembered last user text, and whether an abort
controller for an in-flight request exists. -/
structure ChatHookState where
  messages : List UiMessage
  isLoading : Bool
  error : Option String
  lastUserMessage : String
  abortCtrl : Bool
deriving DecidableEq

/-- The hook state on mount. -/
def initialChatState : ChatHookState := ⟨[], false, none, "", false⟩

/-- How the awaited completion call ended: a reply, an abort-flagged
rejection, or any other failure with its message. -/
inductive SendResult
  | success (response : String)
  | aborted
  | failed (errMsg : String)
deriving DecidableEq

/-- Outcome of `useChat.sendMessage`: the new hook state and whether a
completion request was actually issued. -/
structure SendOutcomeUi where
  state : ChatHookState
  requestIssued : Bool
deriving DecidableEq

/-- `useChat.sendMessage` (useChat.ts lines 37-99).  The clock and how the
awaited completion call ended are explicit parameters; the early-return guard
rejects empty (after trimming) input and in-flight sends. -/
def chatSendMessage (st : ChatHookState) (content : String) (now : Nat)
    (result : SendResult) : SendOutcomeUi :=
  if jsTrim content = "" ∨ st.isLoading then ⟨st, false⟩
  else
    let trimmed := jsTrim content
    let st1 : ChatHookState :=
      { st with
        lastUserMessage := trimmed
        messages := st.messages ++ [⟨"user-" ++ toString now, UiRole.user, trimmed, now⟩]
        isLoading := true
        error := none
        abortCtrl := true }
    match result with
    | .success resp =>
      ⟨{ st1 with
          messages := st1.messages ++ [⟨"assistant-" ++ toString now, UiRole.assistant, resp, now⟩]
          error := none
          isLoading := false
          abortCtrl := false }, true⟩
    | .aborted => ⟨{ st1 with isLoading := false, abortCtrl := false }, true⟩
    | .failed e =>
      ⟨{ st1 with
          error := some e
          messages := st1.messages ++
            [⟨"error-" ++ toString now, UiRole.assistant,
              "I apologize, but I encountered an error: " ++ e ++ ". Please try again.", now⟩]
          isLoading := false
          abortCtrl := false }, true⟩

/-- Outcome of `useChat.clearMessages`: the new hook state and whether an
in-flight request was aborted. -/
structure ClearOutcome where
  state : ChatHookState
  abortIssued : Bool
deriving DecidableEq

/-- `useChat.clearMessages` (useChat.ts lines 116-126). -/
def clearMessages (st : ChatHookState) : ClearOutcome :=
  ⟨{ st with messages := [], error := none, lastUserMessage := "", abortCtrl := false },
    st.abortCtrl⟩

/-- `useChat.retryLastMessage` (useChat.ts lines 101-114): when idle and a
last user text is remembered, drop a trailing assistant message and resubmit
that text through `sendMessage`. -/
def retryLastMessage (st : ChatHookState) (now : Nat) (result : SendResult) : SendOutcomeUi :=
  if st.lastUserMessage ≠ "" ∧ st.isLoading = false then
    let msgs := match st.messages.getLast? with
      | some m => if m.role = UiRole.assistant then st.messages.dropLast else st.messages
      | none => st.messages
    chatSendMessage { st with messages := msgs } st.lastUserMessage now result
  else ⟨st, false⟩

/-- The "Wireless Mouse" product of the spec scenario (§8). -/
def wirelessMouse : WooCommerceProduct :=
  { id := 1
    name := "Wireless Mouse"
    description := "A comfortable wireless mouse with long battery life"
    short_description := "Ergonomic wireless mouse"
    sku := "WM-001"
    price := "29.99"
    regular_price := "29.99"
    on_sale := false
    stock_status := "instock"
    stock_quantity := some 12
    categories := [⟨1, "Electronics"⟩]
    permalink := "https://store.example/product/wireless-mouse" }

/-- The "USB Cable" product of the spec scenario: its description mentions a
mouse pad. -/
def usbCable : WooCommerceProduct :=
  { id := 2
    name := "USB Cable"
    description := "A braided cable that pairs well with any mouse pad"
    short_description := "Braided USB cable"
    sku := "UC-002"
    price := "9.99"
    regular_price := "9.99"
    on_sale := false
    stock_status := "instock"
    stock_quantity := some 40
    categories := [⟨1, "Electronics"⟩]
    permalink := "https://store.example/product/usb-cable" }

/-- The two-product catalog of the spec scenario. -/
def sampleCatalog : List WooCommerceProduct := [wirelessMouse, usbCable]

set_option maxRecDepth 10000

theorem getD_range_map {α : Type} (l : List α) (d : α) :
    (List.range l.length).map (fun i => l.getD i d) = l := by
  induction l with
  | nil => rfl
  | cons a t ih =>
    rw [List.length_cons, List.range_succ_eq_map, List.map_cons, List.map_map]
    refine congrArg₂ List.cons List.getD_cons_zero ?_
    calc List.map ((fun i => (a :: t).getD i d) ∘ Nat.succ) (List.range t.length)
        = List.map (fun i => t.getD i d) (List.range t.length) :=
          List.map_congr_left (fun i _ => List.getD_cons_succ)
      _ = t := ih

theorem orderedInsert_middle {α : Type} (r : α → α → Prop) [DecidableRel r] (a : α) :
    ∀ (l₁ l₂ : List α), (∀ b ∈ l₁, ¬ r a b) → (∀ x xs, l₂ = x :: xs → r a x) →
      List.orderedInsert r a (l₁ ++ l₂) = l₁ ++ a :: l₂
  | [], l₂, _, h₂ => by
    cases l₂ with
    | nil => rfl
    | cons x xs => simp [List.orderedInsert, h₂ x xs rfl]
  | b :: l₁, l₂, h₁, h₂ => by
    have hb : ¬ r a b := h₁ b (List.mem_cons_self b l₁)
    simp only [List.cons_append, List.orderedInsert, if_neg hb]
    exact congrArg (b :: ·) (orderedInsert_middle r a l₁ l₂
      (fun c hc => h₁ c (List.mem_cons_of_mem b hc)) h₂)

theorem mergeSortIdx_eq_insertionSort (sc : Nat → Nat) :
    ∀ (idxs : List Nat), idxs.Pairwise (· < ·) →
      idxs.mergeSort (fun i j => decide (sc j ≤ sc i))
        = idxs.insertionSort (specOrder sc) := by
  have htrans : ∀ (a b c : Nat), (fun i j => decide (sc j ≤ sc i)) a b = true →
      (fun i j => decide (sc j ≤ sc i)) b c = true →
      (fun i j => decide (sc j ≤ sc i)) a c = true := by
    intro a b c hab hbc
    simp only [decide_eq_true_eq] at *
    exact le_trans hbc hab
  have htotal : ∀ (a b : Nat), ((fun i j => decide (sc j ≤ sc i)) a b ||
      (fun i j => decide (sc j ≤ sc i)) b a) = true := by
    intro a b
    simp only [Bool.or_eq_true, decide_eq_true_eq]
    exact Nat.le_total (sc b) (sc a)
  intro idxs
  induction idxs with
  | nil => intro _; simp [List.insertionSort]
  | cons a rest ih =>
    intro hpw
    obtain ⟨ha, hrest⟩ := List.pairwise_cons.mp hpw
    obtain ⟨l₁, l₂, hsplit, hrestSort, hl₁⟩ := List.mergeSort_cons htrans htotal a rest
    have hsorted := List.sorted_mergeSort htrans htotal (a :: rest)
    rw [hsplit] at hsorted
    have hpair : List.Pairwise (fun x y => (fun i j => decide (sc j ≤ sc i)) x y = true) (a :: l₂) :=
      hsorted.sublist (List.sublist_append_right l₁ (a :: l₂))
    have hal₂ : ∀ x ∈ l₂, sc x ≤ sc a := by
      intro x hx
      have := (List.pairwise_cons.mp hpair).1 x hx
      simpa using this
    have hmem : ∀ x ∈ l₂, x ∈ rest := by
      intro x hx
      have hx' : x ∈ l₁ ++ l₂ := List.mem_append_right l₁ hx
      rw [← hrestSort] at hx'
      exact (List.mergeSort_perm rest _).mem_iff.mp hx'
    have hb : ∀ b ∈ l₁, ¬ specOrder sc a b := by
      intro b hbmem hcon
      have h := hl₁ b hbmem
      have h' : ¬ (sc b ≤ sc a) := by simpa using h
      rcases hcon with h1 | ⟨h2, _⟩
      · exact h' (le_of_lt h1)
      · exact h' (le_of_eq h2.symm)
    have hx : ∀ x xs, l₂ = x :: xs → specOrder sc a x := by
      intro x xs hcons
      have hxmem : x ∈ l₂ := hcons ▸ List.mem_cons_self x xs
      have h1 : sc x ≤ sc a := hal₂ x hxmem
      have h2 : a < x := ha x (hmem x hxmem)
      rcases lt_or_eq_of_le h1 with h | h
      · exact Or.inl h
      · exact Or.inr ⟨h.symm, le_of_lt h2⟩
    calc (a :: rest).mergeSort (fun i j => decide (sc j ≤ sc i)) = l₁ ++ a :: l₂ := hsplit
      _ = List.orderedInsert (specOrder sc) a (l₁ ++ l₂) :=
          (orderedInsert_middle (specOrder sc) a l₁ l₂ hb hx).symm
      _ = List.orderedInsert (specOrder sc) a
            (rest.mergeSort (fun i j => decide (sc j ≤ sc i))) := by rw [hrestSort]
      _ = List.orderedInsert (specOrder sc) a (rest.insertionSort (specOrder sc)) := by
          rw [ih hrest]
      _ = (a :: rest).insertionSort (specOrder sc) := rfl

theorem findRelevantProducts_eq_spec (query : String) (products : List WooCommerceProduct) :
    findRelevantProducts query products = findRelevantProductsSpec query products := by
  unfold findRelevantProducts findRelevantProductsSpec
  by_cases h0 : products.length = 0
  · rw [if_pos h0, h0]
    simp [List.insertionSort]
  · rw [if_neg h0]
    show (List.map (fun item => item.1) (List.take 5
        ((List.filter (fun item => decide (item.2 > 0))
          (List.map (fun p => (p, productScore (queryKeywords query) p)) products)).mergeSort
          fun a b => decide (b.2 ≤ a.2))))
      = List.map (prodAt products) (List.take 5
          (List.insertionSort (specOrder fun i => productScore (queryKeywords query) (prodAt products i))
            (List.filter (fun i => decide (0 < productScore (queryKeywords query) (prodAt products i)))
              (List.range products.length))))
    have h1 : products.map (fun p => (p, productScore (queryKeywords query) p))
        = (List.range products.length).map
            (fun i => (prodAt products i,
              productScore (queryKeywords query) (prodAt products i))) := by
      conv_lhs => rw [← getD_range_map products dummyProduct, List.map_map]
      rfl
    have key : ((List.range products.length).filter
          (fun i => decide (0 < productScore (queryKeywords query) (prodAt products i)))).mergeSort
          (fun i j => decide (productScore (queryKeywords query) (prodAt products j)
            ≤ productScore (queryKeywords query) (prodAt products i)))
        = List.insertionSort
            (specOrder fun i => productScore (queryKeywords query) (prodAt products i))
            ((List.range products.length).filter
              (fun i => decide (0 < productScore (queryKeywords query) (prodAt products i)))) :=
      mergeSortIdx_eq_insertionSort
        (fun i => productScore (queryKeywords query) (prodAt products i))
        ((List.range products.length).filter
          (fun i => decide (0 < productScore (queryKeywords query) (prodAt products i))))
        ((List.pairwise_lt_range products.length).filter _)
    rw [h1, List.filter_map,
      ← List.map_mergeSort (r := fun i j =>
          decide (productScore (queryKeywords query) (prodAt products j)
            ≤ productScore (queryKeywords query) (prodAt products i)))
        (fun a _ b _ => rfl),
      ← List.map_take, List.map_map]
    rw [show ((List.range products.length).filter
        ((fun item => decide (item.2 > 0)) ∘ fun i => (prodAt products i,
          productScore (queryKeywords query) (prodAt products i))))
        = ((List.range products.length).filter
          (fun i => decide (0 < productScore (queryKeywords query) (prodAt products i)))) from rfl]
    rw [key]
    rfl

/-- C1: for every query and candidate product list, `findRelevantProducts`
returns exactly the positive-scored products, ordered by descending score
with ties broken by original catalog position, truncated to at most five
entries, with the keywords obtained by lowercasing the query and keeping
words longer than two characters. -/
theorem findRelevantProducts_correct (query : String) (products : List WooCommerceProduct) :
    findRelevantProducts query products = findRelevantProductsSpec query products ∧
    (findRelevantProducts query products).length ≤ 5 := by
  refine ⟨findRelevantProducts_eq_spec query products, ?_⟩
  rw [findRelevantProducts_eq_spec]
  unfold findRelevantProductsSpec
  rw [List.length_map, List.length_take]
  exact min_le_left _ _

theorem jsToLower_append (s t : String) :
    (jsToLower (s ++ t)).data = (jsToLower s).data ++ (jsToLower t).data := by
  show ((s ++ t).data.map Char.toLower) = s.data.map Char.toLower ++ t.data.map Char.toLower
  rw [String.data_append, List.map_append]

theorem jsIncludes_append_left (s t kw : String)
    (h : jsIncludes (jsToLower s) kw = true) :
    jsIncludes (jsToLower (s ++ t)) kw = true := by
  rw [jsIncludes, decide_eq_true_eq] at h ⊢
  rw [jsToLower_append]
  exact h.trans (List.prefix_append _ _).isInfix

theorem name_match_in_blob (p : WooCommerceProduct) (kw : String)
    (h : jsIncludes (jsToLower p.name) kw = true) :
    jsIncludes (productText p) kw = true :=
  jsIncludes_append_left _ _ _ (jsIncludes_append_left _ _ _ (jsIncludes_append_left _ _ _
    (jsIncludes_append_left _ _ _ (jsIncludes_append_left _ _ _
      (jsIncludes_append_left _ _ _ h)))))

/-- C2 (counterexample): the keyword "mouse" occurs in the name of the
Wireless Mouse product, yet its per-keyword contribution is not 3: the blob
check also fires, so a name match contributes 4. -/
theorem keywordScore_name_not_three :
    jsIncludes (jsToLower wirelessMouse.name) "mouse" = true ∧
    keywordScore wirelessMouse "mouse" ≠ 3 := by decide

/-- C2 (amended): a keyword found in the blob but not in the name contributes
exactly 1; a keyword found in the name contributes exactly 4 (the +1 blob
occurrence plus the +3 name bonus, since the blob starts with the name);
consequently a keyword appearing only in a name scores at least 3 times
higher than the same keyword appearing only in a description. -/
theorem keywordScore_cases (p : WooCommerceProduct) (kw : String) :
    (jsIncludes (productText p) kw = true → jsIncludes (jsToLower p.name) kw = false →
      keywordScore p kw = 1) ∧
    (jsIncludes (jsToLower p.name) kw = true → keywordScore p kw = 4) ∧
    (∀ q : WooCommerceProduct, jsIncludes (jsToLower p.name) kw = true →
      jsIncludes (productText q) kw = true → jsIncludes (jsToLower q.name) kw = false →
      3 * keywordScore q kw ≤ keywordScore p kw) := by
  refine ⟨?_, ?_, ?_⟩
  · intro hblob hname
    rw [keywordScore, if_pos hblob, if_neg (by simp [hname])]
  · intro hname
    rw [keywordScore, if_pos (name_match_in_blob p kw hname), if_pos hname]
  · intro q hname hqblob hqname
    rw [keywordScore, if_pos hqblob, if_neg (by simp [hqname]),
      keywordScore, if_pos (name_match_in_blob p kw hname), if_pos hname]
    omega

/-- C2 (witness): the USB Cable mentions "mouse" only in its description and
scores 1; the Wireless Mouse has it in the name and scores 4. -/
theorem keywordScore_cases_witness :
    keywordScore usbCable "mouse" = 1 ∧ keywordScore wirelessMouse "mouse" = 4 ∧
    3 * keywordScore usbCable "mouse" ≤ keywordScore wirelessMouse "mouse" :=
  ⟨(keywordScore_cases usbCable "mouse").1 (by decide) (by decide),
    (keywordScore_cases wirelessMouse "mouse").2.1 (by decide),
    (keywordScore_cases wirelessMouse "mouse").2.2 usbCable (by decide) (by decide) (by decide)⟩

theorem svcSendMessage_head (st : OpenAIServiceState) (ok : Bool) (msg : String)
    (inc : Bool) (now : Nat) (fr : Option (List WooCommerceProduct)) (ar : Option ChatMsg)
    (h : st.conversationHistory.head? = some ⟨Role.system, SYSTEM_PROMPT⟩) :
    (svcSendMessage st ok msg inc now fr ar).state.conversationHistory.head?
      = some ⟨Role.system, SYSTEM_PROMPT⟩ := by
  unfold svcSendMessage
  cases ok with
  | false => simpa using h
  | true =>
    cases inc <;> cases ar <;> simp [List.head?_append, h]

theorem svcStep_head (st : OpenAIServiceState) (e : SvcEvent)
    (h : st.conversationHistory.head? = some ⟨Role.system, SYSTEM_PROMPT⟩) :
    (svcStep st e).conversationHistory.head? = some ⟨Role.system, SYSTEM_PROMPT⟩ := by
  cases e with
  | send ok msg inc now fr ar => exact svcSendMessage_head st ok msg inc now fr ar h
  | search sr ok q ar =>
    cases sr with
    | none => exact h
    | some ps =>
      simp only [svcStep]
      by_cases hl : ps.length = 0
      · rw [if_pos hl]
        exact svcSendMessage_head st ok _ false 0 none ar h
      · rw [if_neg hl]
        exact svcSendMessage_head st ok _ false 0 none ar h
  | clear => rfl

theorem svcRun_head (events : List SvcEvent) :
    (svcRun events).conversationHistory.head? = some ⟨Role.system, SYSTEM_PROMPT⟩ := by
  have hrun : ∀ (evs : List SvcEvent) (st : OpenAIServiceState),
      st.conversationHistory.head? = some ⟨Role.system, SYSTEM_PROMPT⟩ →
      (evs.foldl svcStep st).conversationHistory.head? = some ⟨Role.system, SYSTEM_PROMPT⟩ := by
    intro evs
    induction evs with
    | nil => intro st h; exact h
    | cons e t ih => intro st h; exact ih _ (svcStep_head st e h)
  exact hrun events initialServiceState rfl

/-- C3: in every state reachable by sendMessage, searchProductsAndRespond and
clearConversation, the head of the stored conversation is the fixed system
instruction, the visible history never contains a system-role message, and
every message list actually sent to the completion API starts with the system
instruction. -/
theorem conversation_system_invariant (events : List SvcEvent) :
    (svcRun events).conversationHistory.head? = some ⟨Role.system, SYSTEM_PROMPT⟩ ∧
    (∀ m ∈ getConversationHistory (svcRun events), m.role ≠ Role.system) ∧
    (∀ (ok : Bool) (msg : String) (inc : Bool) (now : Nat)
        (fr : Option (List WooCommerceProduct)) (ar : Option ChatMsg)
        (req : List ChatMsg),
      (svcSendMessage (svcRun events) ok msg inc now fr ar).request = some req →
      req.head? = some ⟨Role.system, SYSTEM_PROMPT⟩) := by
  refine ⟨svcRun_head events, ?_, ?_⟩
  · intro m hm
    have := List.mem_filter.mp hm
    simpa using this.2
  · intro ok msg inc now fr ar req hreq
    unfold svcSendMessage at hreq
    cases ok with
    | false => simp at hreq
    | true =>
      cases inc <;> cases ar <;>
        · simp only [] at hreq
          obtain rfl := (Option.some_inj.mp hreq).symm
          simp [List.head?_append, svcRun_head events]

/-- C3 (witness): after one successful send, the visible user message is not
system-role, and a follow-up send issues a request headed by the system
instruction. -/
theorem conversation_system_invariant_witness :
    (⟨Role.user, "hi"⟩ : ChatMsg).role ≠ Role.system ∧
    ([⟨Role.system, SYSTEM_PROMPT⟩, ⟨Role.user, "hi"⟩, ⟨Role.assistant, "hello"⟩,
        ⟨Role.user, "yo"⟩] : List ChatMsg).head? = some ⟨Role.system, SYSTEM_PROMPT⟩ :=
  ⟨(conversation_system_invariant [SvcEvent.send true "hi" false 0 none
        (some ⟨Role.assistant, "hello"⟩)]).2.1 ⟨Role.user, "hi"⟩ (by decide),
    (conversation_system_invariant [SvcEvent.send true "hi" false 0 none
        (some ⟨Role.assistant, "hello"⟩)]).2.2 true "yo" false 0 none
      (some ⟨Role.assistant, "ok"⟩) _ rfl⟩

/-- C4: submitting while a send is in flight, or with input that trims to
empty, is a no-op: transcript, error, loading flag and remembered last user
text are unchanged and no completion request is issued. -/
theorem sendMessage_guard_noop (st : ChatHookState) (content : String)
    (now : Nat) (result : SendResult)
    (h : jsTrim content = "" ∨ st.isLoading = true) :
    (chatSendMessage st content now result).state.messages = st.messages ∧
    (chatSendMessage st content now result).state.error = st.error ∧
    (chatSendMessage st content now result).state.isLoading = st.isLoading ∧
    (chatSendMessage st content now result).state.lastUserMessage = st.lastUserMessage ∧
    (chatSendMessage st content now result).requestIssued = false := by
  have heq : chatSendMessage st content now result = ⟨st, false⟩ := by
    unfold chatSendMessage
    rcases h with h | h
    · rw [if_pos (Or.inl h)]
    · rw [if_pos (Or.inr h)]
  rw [heq]
  exact ⟨rfl, rfl, rfl, rfl, rfl⟩

/-- C4 (witness): whitespace-only input on the initial state changes
nothing. -/
theorem sendMessage_guard_noop_witness :
    (chatSendMessage initialChatState "   " 0 (SendResult.success "hi")).state.messages
        = initialChatState.messages ∧
    (chatSendMessage initialChatState "   " 0 (SendResult.success "hi")).state.error
        = initialChatState.error ∧
    (chatSendMessage initialChatState "   " 0 (SendResult.success "hi")).state.isLoading
        = initialChatState.isLoading ∧
    (chatSendMessage initialChatState "   " 0 (SendResult.success "hi")).state.lastUserMessage
        = initialChatState.lastUserMessage ∧
    (chatSendMessage initialChatState "   " 0 (SendResult.success "hi")).requestIssued = false :=
  sendMessage_guard_noop initialChatState "   " 0 (SendResult.success "hi") (Or.inl (by decide))

/-- C5: a non-abort failure of an in-flight send records the error string
and appends a synthetic assistant message beginning with the apology prefix
followed by that message, so the transcript gains exactly one user turn and
one assistant turn. -/
theorem sendMessage_failure_surfaces_error (st : ChatHookState) (content : String)
    (now : Nat) (e : String) (h1 : ¬ jsTrim content = "") (h2 : st.isLoading = false) :
    (chatSendMessage st content now (SendResult.failed e)).state.error = some e ∧
    (chatSendMessage st content now (SendResult.failed e)).state.messages
      = st.messages ++
        [⟨"user-" ++ toString now, UiRole.user, jsTrim content, now⟩,
          ⟨"error-" ++ toString now, UiRole.assistant,
            "I apologize, but I encountered an error: " ++ e ++ ". Please try again.", now⟩] ∧
    ("I apologize, but I encountered an error: " ++ e).data <+:
      ("I apologize, but I encountered an error: " ++ e ++ ". Please try again.").data := by
  have hcond : ¬ (jsTrim content = "" ∨ st.isLoading = true) := by
    rintro (h | h)
    · exact h1 h
    · rw [h2] at h
      cases h
  unfold chatSendMessage
  rw [if_neg hcond]
  refine ⟨rfl, ?_, ?_⟩
  · simp [List.append_assoc]
  · rw [String.data_append]
    exact List.prefix_append _ _

/-- C5 (witness): the 401 scenario, failing with "invalid api key". -/
theorem sendMessage_failure_witness :
    (chatSendMessage initialChatState "hello" 0 (SendResult.failed "invalid api key")).state.error
        = some "invalid api key" ∧
    (chatSendMessage initialChatState "hello" 0 (SendResult.failed "invalid api key")).state.messages
      = initialChatState.messages ++
        [⟨"user-" ++ toString 0, UiRole.user, jsTrim "hello", 0⟩,
          ⟨"error-" ++ toString 0, UiRole.assistant,
            "I apologize, but I encountered an error: " ++ "invalid api key" ++ ". Please try again.", 0⟩] ∧
    ("I apologize, but I encountered an error: " ++ "invalid api key").data <+:
      ("I apologize, but I encountered an error: " ++ "invalid api key" ++ ". Please try again.").data :=
  sendMessage_failure_surfaces_error initialChatState "hello" 0 "invalid api key" (by decide) rfl

/-- C6: an aborted in-flight send appends no assistant message and sets no
error: the transcript keeps only the optimistically appended user turn. -/
theorem sendMessage_abort_silent (st : ChatHookState) (content : String) (now : Nat)
    (h1 : ¬ jsTrim content = "") (h2 : st.isLoading = false) :
    (chatSendMessage st content now SendResult.aborted).state.messages
      = st.messages ++ [⟨"user-" ++ toString now, UiRole.user, jsTrim content, now⟩] ∧
    (chatSendMessage st content now SendResult.aborted).state.error = none ∧
    (chatSendMessage st content now SendResult.aborted).requestIssued = true := by
  have hcond : ¬ (jsTrim content = "" ∨ st.isLoading = true) := by
    rintro (h | h)
    · exact h1 h
    · rw [h2] at h
      cases h
  unfold chatSendMessage
  rw [if_neg hcond]
  exact ⟨rfl, rfl, rfl⟩

/-- C6 (witness): an aborted send of "hello" from the initial state. -/
theorem sendMessage_abort_witness :
    (chatSendMessage initialChatState "hello" 0 SendResult.aborted).state.messages
      = initialChatState.messages ++ [⟨"user-" ++ toString 0, UiRole.user, jsTrim "hello", 0⟩] ∧
    (chatSendMessage initialChatState "hello" 0 SendResult.aborted).state.error = none ∧
    (chatSendMessage initialChatState "hello" 0 SendResult.aborted).requestIssued = true :=
  sendMessage_abort_silent initialChatState "hello" 0 (by decide) rfl

/-- C7: from every prior state, clearMessages empties the transcript,
unsets the error, forgets the last user text, and aborts exactly when a
request was in flight. -/
theorem clearMessages_resets (st : ChatHookState) :
    (clearMessages st).state.messages = [] ∧
    (clearMessages st).state.error = none ∧
    (clearMessages st).state.lastUserMessage = "" ∧
    (clearMessages st).abortIssued = st.abortCtrl :=
  ⟨rfl, rfl, rfl, rfl⟩

/-- C8: retryLastMessage is a no-op while a send is in flight or when no
last user text is remembered; otherwise it drops a trailing assistant-role
message (and only such a message) and resubmits the remembered text through
the normal submit path. -/
theorem retryLastMessage_behavior (st : ChatHookState) (now : Nat) (result : SendResult) :
    ((st.isLoading = true ∨ st.lastUserMessage = "") →
      retryLastMessage st now result = ⟨st, false⟩) ∧
    (st.isLoading = false → ¬ st.lastUserMessage = "" →
      ((∀ m, st.messages.getLast? = some m → m.role = UiRole.assistant →
          retryLastMessage st now result
            = chatSendMessage { st with messages := st.messages.dropLast }
                st.lastUserMessage now result) ∧
        (∀ m, st.messages.getLast? = some m → ¬ m.role = UiRole.assistant →
          retryLastMessage st now result
            = chatSendMessage st st.lastUserMessage now result) ∧
        (st.messages.getLast? = none →
          retryLastMessage st now result
            = chatSendMessage st st.lastUserMessage now result))) := by
  constructor
  · intro h
    have hneg : ¬ (st.lastUserMessage ≠ "" ∧ st.isLoading = false) := by
      rcases h with h | h
      · rintro ⟨_, h2⟩
        rw [h] at h2
        cases h2
      · rintro ⟨h1, _⟩
        exact h1 h
    unfold retryLastMessage
    rw [if_neg hneg]
  · intro hload hlast
    refine ⟨?_, ?_, ?_⟩
    · intro m hm hrole
      unfold retryLastMessage
      rw [if_pos ⟨hlast, hload⟩, hm]
      simp [hrole]
    · intro m hm hrole
      unfold retryLastMessage
      rw [if_pos ⟨hlast, hload⟩, hm]
      simp [hrole]
    · intro hm
      unfold retryLastMessage
      rw [if_pos ⟨hlast, hload⟩, hm]

/-- C8 (witness): a retry during loading is a no-op; a retry after an
error placeholder drops it and resubmits "hello". -/
theorem retryLastMessage_behavior_witness :
    retryLastMessage ⟨[], true, none, "hello", false⟩ 0 (SendResult.success "ok")
        = ⟨⟨[], true, none, "hello", false⟩, false⟩ ∧
    retryLastMessage ⟨[⟨"user-1", UiRole.user, "hello", 1⟩,
          ⟨"error-2", UiRole.assistant, "oops", 2⟩], false, some "oops", "hello", false⟩ 3
        (SendResult.success "ok")
      = chatSendMessage ⟨[⟨"user-1", UiRole.user, "hello", 1⟩], false, some "oops", "hello", false⟩
          "hello" 3 (SendResult.success "ok") :=
  ⟨(retryLastMessage_behavior ⟨[], true, none, "hello", false⟩ 0 (SendResult.success "ok")).1
      (Or.inl rfl),
    ((retryLastMessage_behavior ⟨[⟨"user-1", UiRole.user, "hello", 1⟩,
          ⟨"error-2", UiRole.assistant, "oops", 2⟩], false, some "oops", "hello", false⟩ 3
        (SendResult.success "ok")).2 rfl (by decide)).1
      ⟨"error-2", UiRole.assistant, "oops", 2⟩ rfl rfl⟩

/-- C9: the context assembler emits the fixed fallback sentence exactly when
the scorer matched nothing; in the "wireless mouse" scenario it renders the
Wireless Mouse line first, with price 29.99 and stock status instock. -/
theorem productContext_renders :
    (∀ (query : String) (products : List WooCommerceProduct),
      findRelevantProducts query products = [] →
      productContext (findRelevantProducts query products)
        = "\n\nNo specific products found matching your query, but I can help with general information.") ∧
    findRelevantProducts "wireless mouse" sampleCatalog = [wirelessMouse, usbCable] ∧
    productContext (findRelevantProducts "wireless mouse" sampleCatalog)
      = "\n\nRelevant products from our catalog:\n- Wireless Mouse: Ergonomic wireless mouse (Price: $29.99, Stock: instock)\n- USB Cable: Braided USB cable (Price: $9.99, Stock: instock)" := by
  have hs : findRelevantProducts "wireless mouse" sampleCatalog = [wirelessMouse, usbCable] :=
    (findRelevantProducts_eq_spec _ _).trans (by decide)
  refine ⟨?_, hs, ?_⟩
  · intro q ps h
    rw [h]
    rfl
  · rw [hs]
    decide

/-- C9 (witness): the empty catalog yields the fallback sentence. -/
theorem productContext_renders_witness :
    productContext (findRelevantProducts "anything" [])
      = "\n\nNo specific products found matching your query, but I can help with general information." :=
  productContext_renders.1 "anything" [] rfl

/-- C10: getProductContext fetches exactly when the cache is empty or more
than five minutes have passed since the last successful fetch, otherwise
serves the cached list unchanged; a failed fetch yields the fixed
unavailability text instead of an error. -/
theorem getProductContext_policy (cache : List WooCommerceProduct) (cacheTime now : Nat)
    (fetchResult : Option (List WooCommerceProduct)) :
    ((getProductContext cache cacheTime now fetchResult).fetched
        = decide (cache.length = 0 ∨ CACHE_DURATION < now - cacheTime)) ∧
    (¬ (cache.length = 0 ∨ CACHE_DURATION < now - cacheTime) →
      getProductContext cache cacheTime now fetchResult
        = ⟨cache, cacheTime, formatProductsForAI cache, false⟩) ∧
    ((cache.length = 0 ∨ CACHE_DURATION < now - cacheTime) →
      (fetchResult = none →
        getProductContext cache cacheTime now fetchResult
          = ⟨cache, cacheTime, "Product information is currently unavailable.", true⟩) ∧
      (∀ ps, fetchResult = some ps →
        getProductContext cache cacheTime now fetchResult
          = ⟨ps, now, formatProductsForAI ps, true⟩)) := by
  unfold getProductContext
  by_cases h : cache.length = 0 ∨ CACHE_DURATION < now - cacheTime
  · rw [if_pos h]
    cases fetchResult with
    | none =>
      exact ⟨by rw [decide_eq_true h], fun hc => absurd h hc,
        fun _ => ⟨fun _ => rfl, fun ps hps => by cases hps⟩⟩
    | some ps =>
      refine ⟨by rw [decide_eq_true h], fun hc => absurd h hc, fun _ => ⟨?_, ?_⟩⟩
      · intro hn
        cases hn
      · intro qs hqs
        cases hqs
        rfl
  · rw [if_neg h]
    exact ⟨by rw [decide_eq_false h], fun _ => rfl, fun hc => absurd hc h⟩

/-- C10 (witness): a warm cache is served without fetching; a cold cache
fetches, and a failed fetch degrades to the fixed text. -/
theorem getProductContext_policy_witness :
    getProductContext [wirelessMouse] 100 200 none
        = ⟨[wirelessMouse], 100, formatProductsForAI [wirelessMouse], false⟩ ∧
    getProductContext [] 0 0 none
        = ⟨[], 0, "Product information is currently unavailable.", true⟩ ∧
    getProductContext [] 0 0 (some [usbCable])
        = ⟨[usbCable], 0, formatProductsForAI [usbCable], true⟩ :=
  ⟨(getProductContext_policy [wirelessMouse] 100 200 none).2.1 (by decide),
    ((getProductContext_policy [] 0 0 none).2.2 (by decide)).1 rfl,
    ((getProductContext_policy [] 0 0 (some [usbCable])).2.2 (by decide)).2 [usbCable] rfl⟩
